import Mathlib

/-!
Verification of the blayzen-sip call gateway core against its specification.

The Go source is shallowly embedded: pure functions become Lean functions,
stateful operations become explicit state-passing functions over a `World`
state, and observable side effects (SIP responses, WebSocket frames, UDP
datagrams, store and cache operations) are collected in an `Effect` trace.
-/

namespace BlayzenSIP

/-- Embedding of `models.Route` (src/internal/models/models.go).
Pointer-typed matcher fields (`*string`) become `Option String`; the
`CustomData` map and timestamps are omitted (no claim depends on them). -/
structure Route where
  id : String
  accountID : String
  name : String
  priority : Int
  matchToUser : Option String
  matchFromUser : Option String
  matchSIPHeader : Option String
  matchSIPHeaderValue : Option String
  webSocketURL : String
  active : Bool
deriving DecidableEq, Repr

/-- Embedding of `Route.Matches` (models.go lines 100-129).  The Go early
returns become a conjunction of the three matcher checks; the Go header map
becomes an association list (`handleInvite` builds it from `X-` headers,
later duplicates overwriting earlier ones, so first-lookup semantics on the
built list coincide). -/
def Route.Matches (r : Route) (toUser fromUser : String)
    (headers : List (String × String)) : Bool :=
  (match r.matchToUser with
   | some v => if v ≠ "" ∧ toUser ≠ v then false else true
   | none => true) &&
  (match r.matchFromUser with
   | some v => if v ≠ "" ∧ fromUser ≠ v then false else true
   | none => true) &&
  (match r.matchSIPHeader with
   | some h =>
     if h ≠ "" then
       match headers.lookup h with
       | none => false
       | some hv =>
         match r.matchSIPHeaderValue with
         | some mv => if mv ≠ "" ∧ hv ≠ mv then false else true
         | none => true
     else true
   | none => true)

/-- The route predicate as the specification words it (spec §4.1 step 3 and
§8 "Route predicate"): every configured (non-empty) matcher must pass;
empty/unset matchers are identity-true; a non-empty `match_sip_header`
requires the header present, and additionally equal to
`match_sip_header_value` when that field is non-empty. -/
def MatchesSpec (r : Route) (toUser fromUser : String)
    (headers : List (String × String)) : Prop :=
  (∀ v, r.matchToUser = some v → v ≠ "" → toUser = v) ∧
  (∀ v, r.matchFromUser = some v → v ≠ "" → fromUser = v) ∧
  (∀ h, r.matchSIPHeader = some h → h ≠ "" →
    ∃ hv, headers.lookup h = some hv ∧
      (∀ mv, r.matchSIPHeaderValue = some mv → mv ≠ "" → hv = mv))

/-- Helper: the user-matcher component of `Route.Matches` agrees with the
spec reading of a single optional equality matcher. -/
lemma userMatcher_iff (o : Option String) (x : String) :
    (match o with
     | some v => if v ≠ "" ∧ x ≠ v then false else true
     | none => true) = true ↔ (∀ v, o = some v → v ≠ "" → x = v) := by
  rcases o with _ | v
  · simp
  · by_cases hv : v = ""
    · simp [hv]
    · by_cases hx : x = v <;> simp [hv, hx]

/-- Helper: the header-matcher component of `Route.Matches` agrees with the
spec reading. -/
lemma headerMatcher_iff (o ov : Option String)
    (headers : List (String × String)) :
    (match o with
     | some h =>
       if h ≠ "" then
         match headers.lookup h with
         | none => false
         | some hv =>
           match ov with
           | some mv => if mv ≠ "" ∧ hv ≠ mv then false else true
           | none => true
       else true
     | none => true) = true ↔
      (∀ h, o = some h → h ≠ "" →
        ∃ hv, headers.lookup h = some hv ∧
          (∀ mv, ov = some mv → mv ≠ "" → hv = mv)) := by
  rcases o with _ | h
  · simp
  · by_cases hh : h = ""
    · simp [hh]
    · dsimp only
      rw [if_pos hh]
      rcases hlk : headers.lookup h with _ | hv
      · simp [hh, hlk]
      · rcases ov with _ | mv
        · simp [hh, hlk]
        · by_cases hmv : mv = ""
          · simp [hh, hlk, hmv]
          · by_cases heq : hv = mv <;> simp [hh, hlk, hmv, heq]

/-- C1: `Route.Matches` returns true iff every configured matcher passes in
the sense of the specification: empty/unset `match_to_user` /
`match_from_user` always pass, non-empty ones pass iff equal to the input;
a non-empty `match_sip_header` requires presence in the header map, and
equality with `match_sip_header_value` exactly when that field is
non-empty. -/
theorem route_matches_iff_spec (r : Route) (toUser fromUser : String)
    (headers : List (String × String)) :
    r.Matches toUser fromUser headers = true ↔
      MatchesSpec r toUser fromUser headers := by
  unfold Route.Matches MatchesSpec
  rw [Bool.and_eq_true, Bool.and_eq_true,
    userMatcher_iff r.matchToUser toUser,
    userMatcher_iff r.matchFromUser fromUser,
    headerMatcher_iff r.matchSIPHeader r.matchSIPHeaderValue headers,
    and_assoc]

/-- Embedding of `models.CallStatus` (models.go lines 54-64). -/
inductive CallStatus where
  | initiated
  | ringing
  | answered
  | completed
  | failed
  | cancelled
deriving DecidableEq, Repr

/-- A remote UDP address (`*net.UDPAddr`), as learned from inbound RTP. -/
structure UDPAddr where
  ip : String
  port : Nat
deriving DecidableEq, Repr

/-- Observable side effects of the embedded operations, collected as a
trace: WebSocket frames to the agent, UDP datagrams, SIP responses,
store writes and cache operations, and resource-release events. -/
inductive Effect where
  /-- `close(s.stopChan)` in `Session.Close`. -/
  | stopChanClose (callID : String)
  /-- A `StopEvent` frame sent to the agent over the WebSocket. -/
  | stopFrame (streamSID : String)
  /-- `s.wsConn.Close()`. -/
  | wsClose
  /-- `s.rtpConn.Close()` (releases the RTP port). -/
  | rtpClose
  /-- A `MediaEvent` frame sent to the agent (payload bytes, chunk number). -/
  | mediaFrame (streamSID : String) (chunk : Nat) (payload : List Nat)
  /-- A UDP datagram written to the remote RTP address. -/
  | udpSend (addr : UDPAddr) (bytes : List Nat)
  /-- `store.UpdateCallStatus(callID, status)`. -/
  | statusUpdate (callID : String) (status : CallStatus)
  /-- `store.CreateCallLog` inserting a row for `callID`. -/
  | callLogCreate (callID : String)
  /-- `cache.SetActiveCall(callID, ...)`. -/
  | cacheSetActiveCall (callID : String)
  /-- `cache.RemoveActiveCall(callID)`. -/
  | cacheRemoveActiveCall (callID : String)
  /-- `tx.Respond` with the given SIP status code. -/
  | sipRespond (code : Nat)
deriving DecidableEq, Repr

/-- Embedding of `call.Session` (src/internal/server/sip.go lines 344-374).
Live handles become Booleans (`wsConn`/`rtpConn`: is the pointer non-nil),
the stop channel becomes the flag "has been closed"; the SIP transaction,
config and store handles are not part of the state. -/
structure SessionState where
  callID : String
  streamSID : String
  fromURI : String
  toURI : String
  fromUser : String
  toUser : String
  webSocketURL : String
  rtpConn : Bool
  rtpPort : Nat
  remoteAddr : Option UDPAddr
  wsConn : Bool
  closed : Bool
  stopChanClosed : Bool
  chunkCount : Nat
deriving DecidableEq, Repr

/-- Go-map assignment semantics on an association list: replace the value
at the key in place, or append the binding if absent. -/
def mapSet {α : Type} (m : List (String × α)) (k : String) (v : α) :
    List (String × α) :=
  match m with
  | [] => [(k, v)]
  | (k', v') :: rest =>
    if k' = k then (k, v) :: rest else (k', v') :: mapSet rest k v

/-- Go-map lookup. -/
def mapGet {α : Type} (m : List (String × α)) (k : String) : Option α :=
  match m with
  | [] => none
  | (k', v) :: rest => if k' = k then some v else mapGet rest k

/-- Go-map `delete`. -/
def mapDel {α : Type} (m : List (String × α)) (k : String) :
    List (String × α) :=
  m.filter (fun p => p.1 ≠ k)

/-- The process-level state the embedded operations touch: the session
registry (`Manager.sessions`), the call-log table (rows as
call-id/status pairs; the other columns play no role in the claims) and
the active-call cache entries. -/
structure World where
  sessions : List (String × SessionState)
  callLogs : List (String × CallStatus)
  activeCalls : List String
deriving DecidableEq, Repr

/-- `UPDATE call_logs SET status = ... WHERE call_id = ...`
(`PostgresStore.UpdateCallStatus`, postgres.go lines 390-417): every row
with that call-id gets the new status; timestamps are not modeled. -/
def updateCallStatusRows (logs : List (String × CallStatus)) (cid : String)
    (st : CallStatus) : List (String × CallStatus) :=
  logs.map (fun p => if p.1 = cid then (p.1, st) else p)

/-- Embedding of `Session.Close` (sip.go lines 626-657): under the mutex,
return immediately when already closed; otherwise set `closed`, close the
stop channel, send a StopEvent and close the WebSocket when connected,
and close the RTP socket when open. -/
def Session.Close (s : SessionState) : SessionState × List Effect :=
  if s.closed then (s, [])
  else
    ({ s with closed := true, stopChanClosed := true,
              wsConn := false, rtpConn := false },
     [Effect.stopChanClose s.callID]
       ++ (if s.wsConn then
             [Effect.stopFrame s.streamSID, Effect.wsClose] else [])
       ++ (if s.rtpConn then [Effect.rtpClose] else []))

/-- Embedding of `Manager.RemoveSession` (sip.go lines 777-798): when the
call-id is registered, close the session, delete it from the registry,
update the call status to completed and remove the active-call cache
entry; otherwise do nothing. -/
def Manager.RemoveSession (w : World) (cid : String) : World × List Effect :=
  match mapGet w.sessions cid with
  | none => (w, [])
  | some s =>
    let (_, closeEffs) := Session.Close s
    ({ sessions := mapDel w.sessions cid,
       callLogs := updateCallStatusRows w.callLogs cid CallStatus.completed,
       activeCalls := w.activeCalls.filter (fun c => c ≠ cid) },
     closeEffs ++ [Effect.statusUpdate cid CallStatus.completed,
                   Effect.cacheRemoveActiveCall cid])

/-- The RTP port range from `config.Config` (RTP_PORT_MIN / RTP_PORT_MAX). -/
structure Config where
  rtpPortMin : Nat
  rtpPortMax : Nat
deriving DecidableEq, Repr

/-- Embedding of `Session.allocateRTPPorts` (sip.go lines 382-405): scan
ports `rtpPortMin..rtpPortMax` ascending and take the first that binds.
The OS is modeled by the list `busy` of ports whose bind fails. -/
def allocateRTPPorts (cfg : Config) (busy : List Nat) : Option Nat :=
  (List.range' cfg.rtpPortMin (cfg.rtpPortMax + 1 - cfg.rtpPortMin)).find?
    (fun p => !(busy.contains p))

/-- The call details `Manager.CreateSession` extracts from the INVITE. -/
structure InviteInfo where
  fromURI : String
  toURI : String
  fromUser : String
  toUser : String
deriving DecidableEq, Repr

/-- Embedding of `Manager.CreateSession` (sip.go lines 710-767): build the
session, allocate an RTP port (on failure return the error with nothing
changed), insert a call-log row with status initiated, set the
active-call cache entry, and assign the session into the registry map
(note: a plain map assignment, with no existence check).  The generated
stream UUID is passed in as `sid`. -/
def Manager.CreateSession (w : World) (cfg : Config) (busy : List Nat)
    (cid : String) (inv : InviteInfo) (route : Route) (sid : String) :
    (World × List Effect) × Option SessionState :=
  match allocateRTPPorts cfg busy with
  | none => ((w, []), none)
  | some port =>
    let s : SessionState :=
      { callID := cid, streamSID := sid,
        fromURI := inv.fromURI, toURI := inv.toURI,
        fromUser := inv.fromUser, toUser := inv.toUser,
        webSocketURL := route.webSocketURL,
        rtpConn := true, rtpPort := port, remoteAddr := none,
        wsConn := false, closed := false, stopChanClosed := false,
        chunkCount := 0 }
    (({ sessions := mapSet w.sessions cid s,
        callLogs := w.callLogs ++ [(cid, CallStatus.initiated)],
        activeCalls :=
          if w.activeCalls.contains cid then w.activeCalls
          else cid :: w.activeCalls },
      [Effect.callLogCreate cid, Effect.cacheSetActiveCall cid]),
     some s)

/-- Embedding of `Manager.GetSession` (sip.go lines 770-774). -/
def Manager.GetSession (w : World) (cid : String) : Option SessionState :=
  mapGet w.sessions cid

/-- The 12-byte RTP header `Session.sendRTP` builds (sip.go lines 594-603):
version 2 (0x80), marker 0 / payload type 0, sequence number = low 16 bits
of the chunk counter, zero timestamp, SSRC 1. -/
def rtpHeaderBytes (chunkCount : Nat) : List Nat :=
  [0x80, 0x00,
   (chunkCount >>> 8) % 256, chunkCount % 256,
   0x00, 0x00, 0x00, 0x00,
   0x00, 0x00, 0x00, 0x01]

/-- Embedding of `Session.sendRTP` (sip.go lines 589-611): drop when no
remote address is learned or the RTP socket is gone; otherwise write one
UDP datagram `header ++ payload` to the remote address.  The session
state is not modified. -/
def Session.sendRTP (s : SessionState) (payload : List Nat) : List Effect :=
  match s.remoteAddr with
  | none => []
  | some addr =>
    if s.rtpConn then
      [Effect.udpSend addr (rtpHeaderBytes s.chunkCount ++ payload)]
    else []

/-- One iteration of `Session.receiveRTP` (sip.go lines 494-540) that has
successfully read a datagram `data` from source address `src` (the
deadline/timeout and transient-error branches just continue and change
nothing).  Note the source order: the remote address is recorded (when
not yet known) BEFORE the minimum-length check; a datagram shorter than
12 bytes is then discarded; otherwise the 12-byte header is stripped, the
chunk counter incremented, and a MediaEvent emitted to the agent. -/
def Session.receiveRTPIter (s : SessionState) (src : UDPAddr)
    (data : List Nat) : SessionState × List Effect :=
  let s1 := match s.remoteAddr with
    | none => { s with remoteAddr := some src }
    | some _ => s
  if data.length < 12 then (s1, [])
  else
    let payload := data.drop 12
    let s2 := { s1 with chunkCount := s1.chunkCount + 1 }
    (s2, [Effect.mediaFrame s2.streamSID s2.chunkCount payload])

/-- What one read on the agent WebSocket can yield, as seen by
`Session.receiveFromAgent` (sip.go lines 543-586): a transport-level read
error (or unexpected close), an undecodable frame, or a parsed message.
`MediaEvent` carries the base64-decoded payload bytes; `other` stands for
any parsed message type the switch has no case for (e.g. DTMF). -/
inductive AgentRead where
  | readError
  | badFrame
  | media (payload : List Nat)
  | clear
  | stop
  | other
deriving DecidableEq, Repr

/-- Whether an iteration of a receive loop continues or terminates. -/
inductive LoopCtl where
  | next
  | done
deriving DecidableEq, Repr

/-- One iteration of `Session.receiveFromAgent` (sip.go lines 543-586):
exit when the stop channel is closed; on a read error, return with NO
further action (in particular `Close` is not invoked); skip undecodable
frames; on Media, decode and `sendRTP`; on Clear, log only; on Stop,
close the session (the spawned `go s.Close()` is applied here) and
return; any other message type is ignored. -/
def Session.receiveFromAgentIter (s : SessionState) (ev : AgentRead) :
    (SessionState × List Effect) × LoopCtl :=
  if s.stopChanClosed then ((s, []), LoopCtl.done)
  else
    match ev with
    | AgentRead.readError => ((s, []), LoopCtl.done)
    | AgentRead.badFrame => ((s, []), LoopCtl.next)
    | AgentRead.media payload =>
      ((s, Session.sendRTP s payload), LoopCtl.next)
    | AgentRead.clear => ((s, []), LoopCtl.next)
    | AgentRead.stop =>
      let (s', effs) := Session.Close s
      ((s', effs), LoopCtl.done)
    | AgentRead.other => ((s, []), LoopCtl.next)

/-- The agent-initiated hangup transition at registry level: the receive
loop holds a pointer to the session that the registry also holds, so the
`Close` performed on a Stop event mutates the registered session in
place; nothing removes it from the registry. -/
def agentStopAt (w : World) (cid : String) : World × List Effect :=
  match mapGet w.sessions cid with
  | none => (w, [])
  | some s =>
    let ((s', effs), _) := Session.receiveFromAgentIter s AgentRead.stop
    ({ w with sessions := mapSet w.sessions cid s' }, effs)

/-- The synthesized fallback route (`&models.Route{Name: "default",
WebSocketURL: r.defaultWSURL}`): every unset Go field is its zero value. -/
def defaultRoute (url : String) : Route :=
  { id := "", accountID := "", name := "default", priority := 0,
    matchToUser := none, matchFromUser := none,
    matchSIPHeader := none, matchSIPHeaderValue := none,
    webSocketURL := url, active := false }

/-- Embedding of `Router.FindRoute` (src/unnamed/part_001 lines 29-71)
after the candidate list has been obtained (from the cache or from
`FindMatchingRoutes`; both produce the same list): return the first
candidate passing `Route.Matches`; otherwise, when a default WebSocket
URL is configured, synthesize a route named "default" with that URL and
no matchers; otherwise fail ("no matching route found", modeled as
`none`). -/
def Router.FindRoute (defaultWSURL : String) (routes : List Route)
    (toUser fromUser : String) (headers : List (String × String)) :
    Option Route :=
  match routes.find? (fun r => r.Matches toUser fromUser headers) with
  | some r => some r
  | none =>
    if defaultWSURL ≠ "" then some (defaultRoute defaultWSURL)
    else none

/-- The SQL prefilter of `PostgresStore.FindMatchingRoutes` (postgres.go
lines 208-239): `active = true AND (match_to_user IS NULL OR = '' OR
= $1) AND (match_from_user IS NULL OR = '' OR = $2)`. -/
def dbPrefilter (toUser fromUser : String) (r : Route) : Bool :=
  r.active &&
  (match r.matchToUser with
   | none => true
   | some v => if v = "" ∨ v = toUser then true else false) &&
  (match r.matchFromUser with
   | none => true
   | some v => if v = "" ∨ v = fromUser then true else false)

/-- The guarantee the `FindMatchingRoutes` query gives about its result
list: it is some permutation of the prefilter-passing rows of the table,
ordered by `priority DESC`.  The SQL has no further ORDER BY term, so
rows of equal priority may come back in any order. -/
def FindMatchingRoutesResult (table : List Route) (toUser fromUser : String)
    (l : List Route) : Prop :=
  l.Perm (table.filter (dbPrefilter toUser fromUser)) ∧
  l.Pairwise (fun a b => b.priority ≤ a.priority)

/-- The synchronous part of `SIPServer.handleInvite` (sip.go lines
90-184), starting from the result of the route lookup: on lookup failure
respond 404 and stop (no session is created); otherwise respond 100
Trying, create the session (on failure respond 500), and respond 180
Ringing.  The asynchronous agent dial that follows is not modeled. -/
def SIPServer.handleInvite (w : World) (cfg : Config) (busy : List Nat)
    (cid : String) (inv : InviteInfo) (sid : String)
    (routeResult : Option Route) : World × List Effect :=
  match routeResult with
  | none => (w, [Effect.sipRespond 404])
  | some route =>
    match Manager.CreateSession w cfg busy cid inv route sid with
    | ((w1, effs), none) =>
      (w1, Effect.sipRespond 100 :: effs ++ [Effect.sipRespond 500])
    | ((w1, effs), some _) =>
      (w1, Effect.sipRespond 100 :: effs ++ [Effect.sipRespond 180])

/-- N successive invocations of the terminal close path
(`Manager.RemoveSession`), with their concatenated effect trace. -/
def iterRemoveSession (n : Nat) (w : World) (cid : String) :
    World × List Effect :=
  match n with
  | 0 => (w, [])
  | n + 1 =>
    let (w1, t1) := Manager.RemoveSession w cid
    let (w2, t2) := iterRemoveSession n w1 cid
    (w2, t1 ++ t2)

/-! Concrete sample data used by witnesses and counterexamples. -/

/-- A sample inbound INVITE's call details. -/
def invAlice : InviteInfo :=
  { fromURI := "sip:alice@198.51.100.7", toURI := "sip:1000@203.0.113.5",
    fromUser := "alice", toUser := "1000" }

/-- A sample route (the seed "Echo Bot" route). -/
def routeEcho : Route :=
  { id := "r-echo", accountID := "acct-1", name := "Echo Bot", priority := 10,
    matchToUser := some "1000", matchFromUser := none,
    matchSIPHeader := none, matchSIPHeaderValue := none,
    webSocketURL := "ws://echo/ws", active := true }

/-- A sample media-active session for Call-ID "c1". -/
def sessionActive : SessionState :=
  { callID := "c1", streamSID := "sid-1",
    fromURI := "sip:alice@198.51.100.7", toURI := "sip:1000@203.0.113.5",
    fromUser := "alice", toUser := "1000",
    webSocketURL := "ws://echo/ws",
    rtpConn := true, rtpPort := 10000,
    remoteAddr := some { ip := "198.51.100.7", port := 40000 },
    wsConn := true, closed := false, stopChanClosed := false,
    chunkCount := 3 }

/-- A world in which `sessionActive` is registered, answered and cached. -/
def worldActive : World :=
  { sessions := [("c1", sessionActive)],
    callLogs := [("c1", CallStatus.answered)],
    activeCalls := ["c1"] }

/-- C10: session creation is atomic on failure.  When no UDP port in the
configured range can be bound, `Manager.CreateSession` returns the error
with the world untouched: the Call-ID is not registered, no call-log row
is created, no active-call cache entry is set, and no effect is
produced. -/
theorem createSession_atomic_on_failure (w : World) (cfg : Config)
    (busy : List Nat) (cid : String) (inv : InviteInfo) (route : Route)
    (sid : String) (h : allocateRTPPorts cfg busy = none) :
    Manager.CreateSession w cfg busy cid inv route sid = ((w, []), none) := by
  unfold Manager.CreateSession
  rw [h]

/-- Witness for C10 at a concrete input: the two-port range 10000-10001
with both ports busy fails allocation, and `CreateSession` then changes
nothing. -/
theorem createSession_atomic_on_failure_witness :
    allocateRTPPorts ⟨10000, 10001⟩ [10000, 10001] = none ∧
      Manager.CreateSession worldActive ⟨10000, 10001⟩ [10000, 10001] "c2"
        invAlice routeEcho "sid-2" = ((worldActive, []), none) :=
  ⟨by decide,
   createSession_atomic_on_failure worldActive ⟨10000, 10001⟩
     [10000, 10001] "c2" invAlice routeEcho "sid-2" (by decide)⟩

/-- C4 (refutation, evaluating the code at the failing input):
`Manager.CreateSession` has no existence check for the Call-ID.  With
"c1" already registered, a second create for "c1" succeeds (is not
rejected) and afterwards `GetSession` returns the NEW session, not the
previously registered one: the registry entry was overwritten. -/
theorem createSession_overwrites_existing_callID :
    (Manager.CreateSession worldActive ⟨10000, 10100⟩ [10000] "c1"
        invAlice routeEcho "sid-2").2 ≠ none ∧
      Manager.GetSession
        (Manager.CreateSession worldActive ⟨10000, 10100⟩ [10000] "c1"
          invAlice routeEcho "sid-2").1.1 "c1" ≠ some sessionActive := by
  decide

/-- C3 (refutation, evaluating the code at the failing input): on the
agent-initiated hangup path (`StopMessage` in `receiveFromAgent`) the
code runs only `go s.Close()`.  After that terminal transition the
session is STILL in the registry, the call-log status is still
"answered" (never set to "completed"), and the active-call cache entry
is still present. -/
theorem agentStop_leaves_session_registered :
    (Manager.GetSession (agentStopAt worldActive "c1").1 "c1").isSome = true ∧
      mapGet (agentStopAt worldActive "c1").1.callLogs "c1" =
        some CallStatus.answered ∧
      (agentStopAt worldActive "c1").1.activeCalls = ["c1"] := by
  decide

/-- C9 (refutation, evaluating the code at the failing input): on a
transport-level read error the `receiveFromAgent` loop just returns.
The loop terminates, but the session state is completely unchanged —
`closed` is still false, the stop channel is still open, and no effect
(in particular no `Close`) is produced. -/
theorem readError_terminates_loop_without_close :
    Session.receiveFromAgentIter sessionActive AgentRead.readError =
      ((sessionActive, []), LoopCtl.done) ∧
      sessionActive.closed = false ∧
      sessionActive.stopChanClosed = false := by
  decide

/-- C7 (counterexample to the claim as stated): a fresh session receives
a 5-byte datagram — shorter than the 12-byte RTP minimum, hence not a
"valid" packet — and the remote peer address is nevertheless recorded
from it, because the source records the address before the length
check. -/
theorem shortPacket_records_remoteAddr :
    ((Session.receiveRTPIter { sessionActive with remoteAddr := none }
        { ip := "198.51.100.7", port := 40000 } [1, 2, 3, 4, 5]).1.remoteAddr =
      some { ip := "198.51.100.7", port := 40000 }) ∧
      ([1, 2, 3, 4, 5] : List Nat).length < 12 := by
  decide

/-- C7 (amended): a datagram shorter than 12 bytes is discarded — no
Media frame is emitted to the agent and the chunk counter is not
incremented; the remote peer address is recorded from the first inbound
packet of ANY length (not only from the first valid one), and once
recorded it never changes. -/
theorem receiveRTP_short_discarded_and_addr_recorded (s : SessionState)
    (src : UDPAddr) (data : List Nat) :
    (data.length < 12 →
      (Session.receiveRTPIter s src data).2 = [] ∧
        (Session.receiveRTPIter s src data).1.chunkCount = s.chunkCount) ∧
      (Session.receiveRTPIter s src data).1.remoteAddr =
        (match s.remoteAddr with
         | none => some src
         | some a => some a) := by
  unfold Session.receiveRTPIter
  rcases h : s.remoteAddr with _ | a <;>
    by_cases hl : data.length < 12 <;>
    simp [h, hl]

/-- Witness for the amended C7 at a concrete input: on a fresh session a
3-byte datagram produces no frame, leaves the chunk counter at 3, and
records the sender as the remote peer. -/
theorem receiveRTP_short_discarded_witness :
    (([9, 9, 9] : List Nat).length < 12 ∧
        (Session.receiveRTPIter { sessionActive with remoteAddr := none }
            { ip := "192.0.2.4", port := 42 } [9, 9, 9]).2 = [] ∧
        (Session.receiveRTPIter { sessionActive with remoteAddr := none }
            { ip := "192.0.2.4", port := 42 } [9, 9, 9]).1.chunkCount =
          ({ sessionActive with remoteAddr := none } : SessionState).chunkCount) ∧
      (Session.receiveRTPIter { sessionActive with remoteAddr := none }
          { ip := "192.0.2.4", port := 42 } [9, 9, 9]).1.remoteAddr =
        some { ip := "192.0.2.4", port := 42 } :=
  ⟨⟨by decide,
    (receiveRTP_short_discarded_and_addr_recorded
        { sessionActive with remoteAddr := none }
        { ip := "192.0.2.4", port := 42 } [9, 9, 9]).1 (by decide)⟩,
   (receiveRTP_short_discarded_and_addr_recorded
      { sessionActive with remoteAddr := none }
      { ip := "192.0.2.4", port := 42 } [9, 9, 9]).2⟩

/-- Lookup after Go-map `delete` finds nothing. -/
lemma mapGet_mapDel {α : Type} (m : List (String × α)) (k : String) :
    mapGet (mapDel m k) k = none := by
  induction m with
  | nil => rfl
  | cons p rest ih =>
    by_cases h : p.1 = k
    · simpa [mapDel, List.filter_cons, h] using ih
    · simpa [mapDel, List.filter_cons, h, mapGet] using ih

/-- `RemoveSession` on an unregistered Call-ID is a no-op. -/
lemma removeSession_absent (w : World) (cid : String)
    (h : mapGet w.sessions cid = none) :
    Manager.RemoveSession w cid = (w, []) := by
  unfold Manager.RemoveSession
  rw [h]

/-- Iterating `RemoveSession` on an unregistered Call-ID is a no-op. -/
lemma iterRemoveSession_absent (n : Nat) (w : World) (cid : String)
    (h : mapGet w.sessions cid = none) :
    iterRemoveSession n w cid = (w, []) := by
  induction n with
  | zero => rfl
  | succ m ih =>
    unfold iterRemoveSession
    rw [removeSession_absent w cid h]
    dsimp only
    rw [ih]
    rfl

/-- Trace predicate: a StopEvent frame to the agent. -/
def isStopFrame : Effect → Bool
  | Effect.stopFrame _ => true
  | _ => false

/-- Trace predicate: a call-log status update to "completed". -/
def isCompletedUpdate : Effect → Bool
  | Effect.statusUpdate _ CallStatus.completed => true
  | _ => false

/-- Trace predicate: a close of the session's stop channel. -/
def isStopChanClose : Effect → Bool
  | Effect.stopChanClose _ => true
  | _ => false

/-- C2: the terminal close path (the session's idempotent `Close` followed
by registry removal and the completed-status write, i.e.
`Manager.RemoveSession`, which the spec describes as a single "Close")
is idempotent and single-shot.  For a registered, not-yet-closed session
with a connected agent link, invoking it N ≥ 1 times equals invoking it
once, and the combined trace contains exactly one Stop frame to the
agent, exactly one call-log status update to "completed", and exactly
one close of the stop channel. -/
theorem closePath_idempotent_single_shot (w : World) (cid : String)
    (s : SessionState) (n : Nat)
    (hreg : mapGet w.sessions cid = some s)
    (hopen : s.closed = false) (hws : s.wsConn = true) (hn : 1 ≤ n) :
    iterRemoveSession n w cid = Manager.RemoveSession w cid ∧
      (iterRemoveSession n w cid).2.countP isStopFrame = 1 ∧
      (iterRemoveSession n w cid).2.countP isCompletedUpdate = 1 ∧
      (iterRemoveSession n w cid).2.countP isStopChanClose = 1 := by
  obtain ⟨m, rfl⟩ : ∃ m, n = m + 1 :=
    ⟨n - 1, (Nat.succ_pred_eq_of_pos hn).symm⟩
  have h1 : iterRemoveSession (m + 1) w cid = Manager.RemoveSession w cid := by
    rcases hr : Manager.RemoveSession w cid with ⟨w1, t1⟩
    have hafter : mapGet w1.sessions cid = none := by
      have hw1 : w1 = (Manager.RemoveSession w cid).1 := by rw [hr]
      rw [hw1]
      simp [Manager.RemoveSession, hreg, mapGet_mapDel]
    unfold iterRemoveSession
    rw [hr]
    dsimp only
    rw [iterRemoveSession_absent m w1 cid hafter]
    simp
  refine ⟨h1, ?_⟩
  rw [h1]
  cases hrtp : s.rtpConn <;>
    simp [Manager.RemoveSession, hreg, Session.Close, hopen, hws, hrtp,
      isStopFrame, isCompletedUpdate, isStopChanClose,
      List.countP_cons, List.countP_append]

/-- Witness for C2 at a concrete input: closing the registered active
session "c1" twice equals closing it once, with exactly one Stop frame,
one completed-status update and one stop-channel close in the trace. -/
theorem closePath_idempotent_witness :
    iterRemoveSession 2 worldActive "c1" =
        Manager.RemoveSession worldActive "c1" ∧
      (iterRemoveSession 2 worldActive "c1").2.countP isStopFrame = 1 ∧
      (iterRemoveSession 2 worldActive "c1").2.countP isCompletedUpdate = 1 ∧
      (iterRemoveSession 2 worldActive "c1").2.countP isStopChanClose = 1 :=
  closePath_idempotent_single_shot worldActive "c1" sessionActive 2
    (by decide) (by decide) (by decide) (by decide)

/-- C8: reverse-path round trip.  With the stop channel open, a Media
event carrying payload P from the agent sends exactly one UDP datagram
to the learned remote address; the datagram is the 12-byte minimal RTP
header followed by P, so its bytes from offset 12 onward equal P, its
first byte 0x80 encodes version 2 and its second byte 0 encodes payload
type 0 (PCMU).  When no remote address has been learned, nothing is
sent. -/
theorem agentMedia_reverse_path (s : SessionState) (payload : List Nat)
    (addr : UDPAddr) (hstop : s.stopChanClosed = false)
    (haddr : s.remoteAddr = some addr) (hconn : s.rtpConn = true) :
    Session.receiveFromAgentIter s (AgentRead.media payload) =
      ((s, [Effect.udpSend addr (rtpHeaderBytes s.chunkCount ++ payload)]),
        LoopCtl.next) ∧
      (rtpHeaderBytes s.chunkCount ++ payload).drop 12 = payload ∧
      (rtpHeaderBytes s.chunkCount).length = 12 ∧
      (rtpHeaderBytes s.chunkCount).head? = some 0x80 ∧
      0x80 >>> 6 = 2 ∧
      (rtpHeaderBytes s.chunkCount)[1]? = some 0 ∧
      (∀ s2 : SessionState, s2.stopChanClosed = false →
        s2.remoteAddr = none →
        Session.receiveFromAgentIter s2 (AgentRead.media payload) =
          ((s2, []), LoopCtl.next)) := by
  refine ⟨?_, ?_, ?_, ?_, ?_, ?_, ?_⟩
  · simp [Session.receiveFromAgentIter, hstop, Session.sendRTP, haddr, hconn]
  · simp [rtpHeaderBytes]
  · simp [rtpHeaderBytes]
  · simp [rtpHeaderBytes]
  · decide
  · simp [rtpHeaderBytes]
  · intro s2 h2stop h2addr
    simp [Session.receiveFromAgentIter, h2stop, Session.sendRTP, h2addr]

/-- Witness for C8 at a concrete input: payload 0xAA 0xBB from the agent
on the active session goes out as one datagram to the learned peer,
12-byte header first. -/
theorem agentMedia_reverse_path_witness :
    Session.receiveFromAgentIter sessionActive (AgentRead.media [170, 187]) =
      ((sessionActive,
        [Effect.udpSend { ip := "198.51.100.7", port := 40000 }
          (rtpHeaderBytes sessionActive.chunkCount ++ [170, 187])]),
        LoopCtl.next) ∧
      (rtpHeaderBytes sessionActive.chunkCount ++ [170, 187]).drop 12 =
        [170, 187] := by
  have h := agentMedia_reverse_path sessionActive [170, 187]
    { ip := "198.51.100.7", port := 40000 } (by decide) (by decide) (by decide)
  exact ⟨h.1, h.2.1⟩

/-- C6: `FindRoute` fails with "no match" (modeled `none`) iff no
candidate passes the predicate and no default agent URL is configured;
when no candidate passes but a default URL is configured it returns the
synthesized route named "default" with that URL and no matchers; and the
"no match" error makes `handleInvite` respond 404 with the world
untouched (no session created). -/
theorem findRoute_noMatch_iff (d : String) (routes : List Route)
    (toU fromU : String) (hdrs : List (String × String)) :
    (Router.FindRoute d routes toU fromU hdrs = none ↔
      (∀ r ∈ routes, r.Matches toU fromU hdrs = false) ∧ d = "") ∧
    ((∀ r ∈ routes, r.Matches toU fromU hdrs = false) → d ≠ "" →
      Router.FindRoute d routes toU fromU hdrs = some (defaultRoute d)) ∧
    ((defaultRoute d).name = "default" ∧ (defaultRoute d).webSocketURL = d ∧
      (defaultRoute d).matchToUser = none ∧
      (defaultRoute d).matchFromUser = none ∧
      (defaultRoute d).matchSIPHeader = none) ∧
    (Router.FindRoute d routes toU fromU hdrs = none →
      ∀ (w : World) (cfg : Config) (busy : List Nat) (cid : String)
        (inv : InviteInfo) (sid : String),
        SIPServer.handleInvite w cfg busy cid inv sid
            (Router.FindRoute d routes toU fromU hdrs) =
          (w, [Effect.sipRespond 404])) := by
  have hiff : routes.find? (fun r => r.Matches toU fromU hdrs) = none ↔
      ∀ r ∈ routes, r.Matches toU fromU hdrs = false := by
    rw [List.find?_eq_none]
    constructor
    · intro h r hr
      exact Bool.eq_false_iff.mpr (h r hr)
    · intro h r hr
      simp [h r hr]
  refine ⟨?_, ?_, ⟨rfl, rfl, rfl, rfl, rfl⟩, ?_⟩
  · constructor
    · intro h
      rcases hf : routes.find? (fun r => r.Matches toU fromU hdrs) with _ | r
      · refine ⟨hiff.mp hf, ?_⟩
        by_contra hd
        simp [Router.FindRoute, hf, hd] at h
      · simp [Router.FindRoute, hf] at h
    · rintro ⟨hall, hd⟩
      simp [Router.FindRoute, hiff.mpr hall, hd]
  · intro hall hd
    simp [Router.FindRoute, hiff.mpr hall, hd]
  · intro h w cfg busy cid inv sid
    rw [h]
    rfl

/-- Witness for C6 at a concrete input: with no candidate matching To
user "9999" and default URL "ws://fallback" configured, the synthesized
default route is returned. -/
theorem findRoute_noMatch_iff_witness :
    Router.FindRoute "ws://fallback" [routeEcho] "9999" "bob" [] =
      some (defaultRoute "ws://fallback") :=
  (findRoute_noMatch_iff "ws://fallback" [routeEcho] "9999" "bob" []).2.1
    (by decide) (by decide)

/-- An equal-priority catch-all route named "a". -/
def routeNameA : Route :=
  { id := "r-a", accountID := "acct-1", name := "a", priority := 5,
    matchToUser := none, matchFromUser := none,
    matchSIPHeader := none, matchSIPHeaderValue := none,
    webSocketURL := "ws://a", active := true }

/-- The same route but named "b". -/
def routeNameB : Route :=
  { routeNameA with id := "r-b", name := "b", webSocketURL := "ws://b" }

/-- The property C5 asserts of route selection: over any candidate list
the store can return (a priority-descending permutation of the
prefilter-passing rows), the chosen first-passing candidate is such that
every candidate with higher priority, or with equal priority and
lexicographically smaller name, fails the predicate. -/
def selectionRespectsNameTiebreak : Prop :=
  ∀ (table l : List Route) (toU fromU : String)
    (hdrs : List (String × String)) (r : Route),
    FindMatchingRoutesResult table toU fromU l →
    l.find? (fun rr => rr.Matches toU fromU hdrs) = some r →
    ∀ r' ∈ l, (r.priority < r'.priority ∨
        (r'.priority = r.priority ∧ r'.name < r.name)) →
      r'.Matches toU fromU hdrs = false

/-- The list `[routeNameB, routeNameA]` is a legitimate
`FindMatchingRoutes` result for its own two rows: the SQL orders by
`priority DESC` only, so equal-priority rows may come back in any order,
including "b" before "a". -/
lemma pairBA_valid_result :
    FindMatchingRoutesResult [routeNameB, routeNameA] "x" "y"
      [routeNameB, routeNameA] := by
  constructor
  · have hfil : ([routeNameB, routeNameA].filter (dbPrefilter "x" "y")) =
        [routeNameB, routeNameA] := by decide
    rw [hfil]
  · decide

/-- C5 (counterexample): the name-ascending tie-break does not hold.  The
store may return two equal-priority catch-all routes as ["b", "a"];
selection then picks "b" even though "a" has equal priority, a
lexicographically smaller name, and passes the predicate. -/
theorem selection_tiebreak_refuted : ¬ selectionRespectsNameTiebreak := by
  intro h
  have hfind : ([routeNameB, routeNameA].find?
      (fun rr => rr.Matches "x" "y" [])) = some routeNameB := by decide
  have hfalse := h [routeNameB, routeNameA] [routeNameB, routeNameA]
    "x" "y" [] routeNameB pairBA_valid_result hfind routeNameA
    (by decide)
    (Or.inr ⟨by decide, by rw [String.lt_iff_toList_lt]; decide⟩)
  exact absurd hfalse (by decide)

/-- In a priority-descending list, every element of strictly higher
priority than a `find?` hit precedes the hit, so it fails the
predicate. -/
lemma find?_first_in_sorted (p : Route → Bool) :
    ∀ l : List Route, l.Pairwise (fun a b => b.priority ≤ a.priority) →
      ∀ r, l.find? p = some r →
        ∀ r' ∈ l, r.priority < r'.priority → p r' = false := by
  intro l
  induction l with
  | nil =>
    intro _ r hf
    cases hf
  | cons x xs ih =>
    intro hsorted r hf r' hr' hprio
    rw [List.pairwise_cons] at hsorted
    obtain ⟨hx, hxs⟩ := hsorted
    by_cases hpx : p x = true
    · rw [List.find?_cons_of_pos _ hpx] at hf
      obtain rfl : x = r := by injection hf
      rcases List.mem_cons.mp hr' with rfl | hmem
      · exact absurd hprio (lt_irrefl _)
      · exact absurd hprio (not_lt.mpr (hx r' hmem))
    · rw [List.find?_cons_of_neg _ hpx] at hf
      rcases List.mem_cons.mp hr' with rfl | hmem
      · exact Bool.eq_false_iff.mpr hpx
      · exact ih hxs r hf r' hmem hprio

/-- C5 (amended): selection iterates the store-returned candidate list —
priority-descending, equal-priority order unspecified — and returns the
first predicate-passing candidate.  The chosen route passes, and every
candidate of strictly higher priority fails; no name tie-break is
applied. -/
theorem findRoute_first_match_wins (table l : List Route)
    (toU fromU : String) (hdrs : List (String × String)) (r : Route)
    (hres : FindMatchingRoutesResult table toU fromU l)
    (hfind : l.find? (fun rr => rr.Matches toU fromU hdrs) = some r) :
    r.Matches toU fromU hdrs = true ∧
      ∀ r' ∈ l, r.priority < r'.priority →
        r'.Matches toU fromU hdrs = false := by
  have hr := List.find?_some hfind
  exact ⟨by simpa using hr, find?_first_in_sorted _ l hres.2 r hfind⟩

/-- Witness for the amended C5 at a concrete input. -/
theorem findRoute_first_match_wins_witness :
    routeNameB.Matches "x" "y" [] = true ∧
      ∀ r' ∈ [routeNameB, routeNameA], routeNameB.priority < r'.priority →
        r'.Matches "x" "y" [] = false :=
  findRoute_first_match_wins [routeNameB, routeNameA]
    [routeNameB, routeNameA] "x" "y" [] routeNameB
    pairBA_valid_result (by decide)

end BlayzenSIP
